import Mathlib

/-
Verification of the USBasp ISP programming engine (src/firmware/isp.c).

The engine is embedded shallowly: the global session state of isp.c
(`isp_hiaddr`, `sck_sw_delay`, the `ispTransmit` function pointer, the
dispatcher-owned `prog_sck`, and the SPI / pin registers it writes) becomes
an explicit record `ISPState`; every byte put on the wire and every
`clockWait` call is recorded in an event trace; bytes read back from the
target (MISO echoes, flash readbacks during polling, the programming-enable
echo) are supplied by oracle functions, since they come from the external
target.  Machine integers are `Nat` with explicit `% 256` / `% 2 ^ 32`
truncation where the C types (`uchar`, `unsigned int`, `unsigned long`)
truncate.
-/

namespace USBasp

/-- Modelled from the spec: the speed-tier enumeration of usbasp.h is not
under src/; the spec describes it as an ordered enumeration from fastest to
slowest with an "automatic" sentinel.  The tier codes are the USBasp
protocol constants: 0 is the automatic sentinel and 1..13 order the tiers
from slowest (0.5 kHz) to fastest (3 MHz). -/
def USBASP_ISP_SCK_AUTO : Nat := 0

/-- Slowest tier, 0.5 kHz (usbasp.h). -/
def USBASP_ISP_SCK_0_5 : Nat := 1

/-- Tier 32 kHz, the fastest software-driven tier (usbasp.h). -/
def USBASP_ISP_SCK_32 : Nat := 7

/-- Tier 93.75 kHz, the hardware cutoff (usbasp.h). -/
def USBASP_ISP_SCK_93_75 : Nat := 8

/-- Tier 187.5 kHz (usbasp.h). -/
def USBASP_ISP_SCK_187_5 : Nat := 9

/-- Tier 375 kHz (usbasp.h). -/
def USBASP_ISP_SCK_375 : Nat := 10

/-- Tier 750 kHz (usbasp.h). -/
def USBASP_ISP_SCK_750 : Nat := 11

/-- Tier 1.5 MHz, the mid-range default (usbasp.h). -/
def USBASP_ISP_SCK_1500 : Nat := 12

/-- Tier 3 MHz, the fastest tier (usbasp.h). -/
def USBASP_ISP_SCK_3000 : Nat := 13

/-- Modelled from the spec: clock.h is not under src/; one polling timeout
window is ~320 us of the free-running 8-bit timer, which at the timer's
tick rate is 60 ticks. -/
def CLOCK_T_320us : Nat := 60

/-- Modelled from the spec: isp.h pin assignments are not under src/; the
three driven control lines and the sampled data-in line are distinct bits
of one 8-bit port (reset, data-out, data-in, clock). -/
def ISP_RST : Nat := 2

/-- Data-out (MOSI) pin bit (isp.h). -/
def ISP_MOSI : Nat := 3

/-- Data-in (MISO) pin bit (isp.h). -/
def ISP_MISO : Nat := 4

/-- Clock (SCK) pin bit (isp.h). -/
def ISP_SCK : Nat := 5

/-- SPI control register bit SPE (avr/io.h). -/
def SPE : Nat := 6

/-- SPI control register bit MSTR (avr/io.h). -/
def MSTR : Nat := 4

/-- SPI control register bit SPR1 (avr/io.h). -/
def SPR1 : Nat := 1

/-- SPI control register bit SPR0 (avr/io.h). -/
def SPR0 : Nat := 0

/-- SPI status register bit SPI2X (avr/io.h). -/
def SPI2X : Nat := 0

/-- The two transmit implementations the `ispTransmit` function pointer can
hold: the hardware SPI variant and the bit-banged software variant. -/
inductive Transport
  | ispTransmit_hw
  | ispTransmit_sw
deriving DecidableEq

/-- The mutable session state of isp.c: the extended-address cache
`isp_hiaddr`, the software per-bit delay `sck_sw_delay`, the active
transmit variant (the `ispTransmit` function pointer), the dispatcher's
requested tier `prog_sck`, and the hardware registers the engine writes
(SPI control/status, pin direction, pin output). -/
structure ISPState where
  isp_hiaddr : Nat
  sck_sw_delay : Nat
  ispTransmit : Transport
  prog_sck : Nat
  SPCR : Nat
  SPSR : Nat
  ISP_DDR : Nat
  ISP_OUT : Nat
deriving DecidableEq

/-- Observable events of a run: a byte handed to `ispTransmit`, a
`clockWait` of the given duration, and the individual set/clear writes to
the output and direction registers. -/
inductive Ev
  | tx (b : Nat)
  | wait (t : Nat)
  | outSet (bit : Nat)
  | outClr (bit : Nat)
  | ddrSet (bit : Nat)
  | ddrClr (bit : Nat)
deriving DecidableEq

/-- A world: the session state, the trace of events emitted so far, and a
ghost field recording the high byte carried by the most recent
load-extended-address command actually transmitted (`none` when no such
command has been transmitted since the last `ispConnect`). -/
structure World where
  st : ISPState
  trace : List Ev
  lastExt : Option Nat
deriving DecidableEq

/-- spiHWenable (isp.c lines 21-24): SPCR |= (1 << SPE) | (1 << MSTR). -/
def spiHWenable (w : World) : World :=
  { w with st := { w.st with
      SPCR := (w.st.SPCR ||| ((1 <<< SPE) ||| (1 <<< MSTR))) % 256 } }

/-- spiHWdisable (isp.c lines 26-28): SPCR = 0. -/
def spiHWdisable (w : World) : World :=
  { w with st := { w.st with SPCR := 0 } }

/-- ispSetSCKOption (isp.c lines 30-91).  The automatic sentinel is mapped
to the 1.5 MHz tier; tiers at or above the 93.75 kHz cutoff select the
hardware transmit variant and configure the SPI divider registers (the C
switch falls through: 1500/default shares SPR0 with 750, and 375 shares
SPR1 with 187.5, each adding SPI2X); tiers below the cutoff select the
software variant and set `sck_sw_delay = 3 << (USBASP_ISP_SCK_32 - option)`
truncated to uchar. -/
def ispSetSCKOption (option0 : Nat) (w : World) : World :=
  let option := if option0 = USBASP_ISP_SCK_AUTO then USBASP_ISP_SCK_1500 else option0
  if USBASP_ISP_SCK_93_75 ≤ option then
    let s1 := { w.st with
      ispTransmit := Transport.ispTransmit_hw,
      SPSR := 0,
      sck_sw_delay := 1 }
    let s2 :=
      if option = USBASP_ISP_SCK_3000 then { s1 with SPCR := 0 }
      else if option = USBASP_ISP_SCK_750 then { s1 with SPCR := 1 <<< SPR0 }
      else if option = USBASP_ISP_SCK_375 then
        { s1 with SPSR := 1 <<< SPI2X, SPCR := 1 <<< SPR1 }
      else if option = USBASP_ISP_SCK_187_5 then { s1 with SPCR := 1 <<< SPR1 }
      else if option = USBASP_ISP_SCK_93_75 then
        { s1 with SPCR := (1 <<< SPR1) ||| (1 <<< SPR0) }
      else { s1 with SPSR := 1 <<< SPI2X, SPCR := 1 <<< SPR0 }
    { w with st := s2 }
  else
    { w with st := { w.st with
        ispTransmit := Transport.ispTransmit_sw,
        sck_sw_delay := (3 <<< (USBASP_ISP_SCK_32 - option)) % 256 } }

/-- ispConnect (isp.c lines 100-118): drive SCK, MOSI, RST as outputs one
at a time, enable the MISO pull-up, pulse RST high for one 320 us unit,
and reset the extended-address cache to its 0xFF sentinel.  The ghost
`lastExt` is cleared: no load-extended-address command has been sent since
this connect. -/
def ispConnect (w : World) : World :=
  let s1 := { w.st with ISP_DDR := (w.st.ISP_DDR ||| (1 <<< ISP_SCK)) % 256 }
  let s2 := { s1 with ISP_DDR := (s1.ISP_DDR ||| (1 <<< ISP_MOSI)) % 256 }
  let s3 := { s2 with ISP_DDR := (s2.ISP_DDR ||| (1 <<< ISP_RST)) % 256 }
  let s4 := { s3 with ISP_OUT := (s3.ISP_OUT ||| (1 <<< ISP_MISO)) % 256 }
  let s5 := { s4 with ISP_OUT := (s4.ISP_OUT ||| (1 <<< ISP_RST)) % 256 }
  let s6 := { s5 with ISP_OUT := s5.ISP_OUT &&& (255 ^^^ (1 <<< ISP_RST)) }
  { st := { s6 with isp_hiaddr := 0xFF },
    trace := w.trace ++ [Ev.ddrSet ISP_SCK, Ev.ddrSet ISP_MOSI, Ev.ddrSet ISP_RST,
      Ev.outSet ISP_MISO, Ev.outSet ISP_RST, Ev.wait 1, Ev.outClr ISP_RST],
    lastExt := none }

/-- ispDisconnect (isp.c lines 120-129): put RST, SCK, MOSI back to inputs,
clear their output/pull-up bits, and disable hardware SPI unconditionally. -/
def ispDisconnect (w : World) : World :=
  let m := (1 <<< ISP_RST) ||| (1 <<< ISP_SCK) ||| (1 <<< ISP_MOSI)
  spiHWdisable { w with st := { w.st with
      ISP_DDR := w.st.ISP_DDR &&& (255 ^^^ m),
      ISP_OUT := w.st.ISP_OUT &&& (255 ^^^ m) } }

/-- ispUpdateExtended (isp.c lines 214-230): the uchar high byte is
`(address >> 17)` of the 32-bit address; when it differs from the cached
`isp_hiaddr` the cache is updated and the 4-byte load-extended-address
command 0x4D 0x00 hi 0x00 is transmitted (and the ghost `lastExt` records
the transmitted high byte); otherwise nothing happens. -/
def ispUpdateExtended (address : Nat) (w : World) : World :=
  if w.st.isp_hiaddr ≠ ((address % 2 ^ 32) >>> 17) % 256 then
    { st := { w.st with isp_hiaddr := ((address % 2 ^ 32) >>> 17) % 256 },
      trace := w.trace ++ [Ev.tx 0x4D, Ev.tx 0x00,
        Ev.tx (((address % 2 ^ 32) >>> 17) % 256), Ev.tx 0x00],
      lastExt := some (((address % 2 ^ 32) >>> 17) % 256) }
  else w

/-- ispReadFlash (isp.c lines 232-240): ensure the extended address, then
transmit the 4-byte read sequence; `mi` is the byte the target returns on
the 4th exchange (truncated to uchar). -/
def ispReadFlash (address mi : Nat) (w : World) : World × Nat :=
  let w1 := ispUpdateExtended address w
  let a := address % 2 ^ 32
  ({ w1 with trace := w1.trace ++
      [Ev.tx (0x20 ||| ((a &&& 1) <<< 3)), Ev.tx ((a >>> 9) % 256),
       Ev.tx ((a >>> 1) % 256), Ev.tx 0x00] },
   mi % 256)

/-- The busy-polling loop shared verbatim by ispWriteFlash (isp.c lines
264-279) and ispFlushPage (isp.c lines 298-314): while `retries != 0`,
re-read the written address (the byte returned by the i-th readback is
`rd i`, the timer value sampled at the i-th iteration is `tm i`); a
readback that differs from the busy sentinel returns success 0; when the
wraparound-safe 8-bit elapsed time exceeds CLOCK_T_320us, the window
restarts and `retries` is decremented; exhausting all retries returns
failure 1.  `fuel` bounds the modelled iterations (`none` = fuel ran out
before the loop decided); `wins` is a ghost counter of elapsed timeout
windows, returned alongside the C result. -/
def ispPollFlash (rd tm : Nat → Nat) (sentinel : Nat) :
    Nat → Nat → Nat → Nat → Nat → Option (Nat × Nat)
  | 0, _, _, _, _ => none
  | fuel + 1, retries, starttime, wins, i =>
    if retries = 0 then some (1, wins)
    else if rd i % 256 ≠ sentinel then some (0, wins)
    else if CLOCK_T_320us < ((tm i % 256) + 256 - starttime % 256) % 256 then
      ispPollFlash rd tm sentinel fuel (retries - 1) (tm i % 256) (wins + 1) (i + 1)
    else
      ispPollFlash rd tm sentinel fuel retries starttime wins (i + 1)

/-- ispWriteFlash (isp.c lines 242-282): ensure the extended address,
transmit the 4-byte write sequence; with `pollmode = 0` return success
immediately; with data 0x7F (which cannot be data-polled) wait a fixed
4.8 ms and return success; otherwise run the busy-polling loop with
sentinel 0x7F, `starttime` sampled from the timer before the loop.  The
readback transactions of the loop are summarised by the `rd` oracle (the
loop never changes the session state: the extended address already matches). -/
def ispWriteFlash (address data pollmode : Nat) (rd tm : Nat → Nat)
    (fuel : Nat) (w : World) : World × Option (Nat × Nat) :=
  let w1 := ispUpdateExtended address w
  let a := address % 2 ^ 32
  let w2 := { w1 with trace := w1.trace ++
      [Ev.tx (0x40 ||| ((a &&& 1) <<< 3)), Ev.tx ((a >>> 9) % 256),
       Ev.tx ((a >>> 1) % 256), Ev.tx (data % 256)] }
  if pollmode = 0 then (w2, some (0, 0))
  else if data % 256 = 0x7F then
    ({ w2 with trace := w2.trace ++ [Ev.wait 15] }, some (0, 0))
  else
    (w2, ispPollFlash rd tm 0x7F fuel 30 (tm 0 % 256) 0 1)

/-- ispFlushPage (isp.c lines 284-317): ensure the extended address,
transmit the 4-byte write-page command; with poll value 0xFF (erased
value, not data-pollable) wait the fixed duration and return success;
otherwise run the busy-polling loop with sentinel 0xFF. -/
def ispFlushPage (address pollvalue : Nat) (rd tm : Nat → Nat)
    (fuel : Nat) (w : World) : World × Option (Nat × Nat) :=
  let w1 := ispUpdateExtended address w
  let a := address % 2 ^ 32
  let w2 := { w1 with trace := w1.trace ++
      [Ev.tx 0x4C, Ev.tx ((a >>> 9) % 256), Ev.tx ((a >>> 1) % 256), Ev.tx 0x00] }
  if pollvalue % 256 = 0xFF then
    ({ w2 with trace := w2.trace ++ [Ev.wait 15] }, some (0, 0))
  else
    (w2, ispPollFlash rd tm 0xFF fuel 30 (tm 0 % 256) 0 1)

/-- ispReadEEPROM (isp.c lines 319-324): transmit 0xA0, the two bytes of
the 16-bit address, and a zero; `mi` is the byte returned on the 4th
exchange. -/
def ispReadEEPROM (address mi : Nat) (w : World) : World × Nat :=
  let a := address % 2 ^ 16
  ({ w with trace := w.trace ++
      [Ev.tx 0xA0, Ev.tx ((a >>> 8) % 256), Ev.tx (a % 256), Ev.tx 0x00] },
   mi % 256)

/-- ispWriteEEPROM (isp.c lines 326-336): transmit 0xC0, the two bytes of
the 16-bit address and the data byte, wait a fixed 9.6 ms, return 0. -/
def ispWriteEEPROM (address data : Nat) (w : World) : World × Nat :=
  let a := address % 2 ^ 16
  ({ w with trace := w.trace ++
      [Ev.tx 0xC0, Ev.tx ((a >>> 8) % 256), Ev.tx (a % 256), Ev.tx (data % 256),
       Ev.wait 30] },
   0)

/-- One handshake attempt of ispEnterProgrammingMode (isp.c lines 181-193):
pulse RST high for one 320 us unit, drop it, wait the 20 ms settle interval
(62 units after the C truncation of 20 / 0.320), and transmit the 4-byte
programming-enable sequence 0xAC 0x53 0x00 0x00. -/
def ispAttempt (w : World) : World :=
  let s1 := { w.st with ISP_OUT := (w.st.ISP_OUT ||| (1 <<< ISP_RST)) % 256 }
  let s2 := { s1 with ISP_OUT := s1.ISP_OUT &&& (255 ^^^ (1 <<< ISP_RST)) }
  { w with
    st := s2,
    trace := w.trace ++ [Ev.outSet ISP_RST, Ev.wait 1, Ev.outClr ISP_RST, Ev.wait 62,
      Ev.tx 0xAC, Ev.tx 0x53, Ev.tx 0x00, Ev.tx 0x00] }

/-- The inner do-while of ispEnterProgrammingMode (isp.c lines 180-204):
up to `tries` attempts; `echo k` is the target's echo of the third
transmitted byte at the k-th attempt overall; an echo of 0x53 returns
`some 0`.  Also returns the attempt counter after the loop. -/
def ispTryTier (echo : Nat → Nat) : Nat → Nat → World → World × Option Nat × Nat
  | 0, k, w => (w, none, k)
  | t + 1, k, w =>
    let w1 := ispAttempt w
    if echo k % 256 = 0x53 then (w1, some 0, k + 1)
    else ispTryTier echo t (k + 1) w1

/-- The outer while of ispEnterProgrammingMode (isp.c lines 175-211):
`p` is the current value of `prog_sck` (the loop runs while it is at least
USBASP_ISP_SCK_0_5 = 1); at each tier, enable hardware SPI when the
hardware variant is active, make up to 3 attempts, and on failure disable
hardware SPI, decrement `prog_sck` and reconfigure with
ispSetSCKOption before retrying; return 1 when the ladder is exhausted. -/
def ispEnterLoop (echo : Nat → Nat) : Nat → Nat → World → World × Nat
  | 0, _, w => (w, 1)
  | p + 1, k, w =>
    let w1 := if w.st.ispTransmit = Transport.ispTransmit_hw then spiHWenable w else w
    let res := ispTryTier echo 3 k w1
    match res.2.1 with
    | some r => (res.1, r)
    | none =>
      let w3 := spiHWdisable res.1
      ispEnterLoop echo p res.2.2
        (ispSetSCKOption p { w3 with st := { w3.st with prog_sck := p } })

/-- ispEnterProgrammingMode (isp.c lines 170-212): when `prog_sck` is 0
(no speed previously configured) set it to the 1.5 MHz default tier, then
run the tier ladder.  DANGEROUS_MODE is not defined, so the speed-bump
block is compiled out. -/
def ispEnterProgrammingMode (echo : Nat → Nat) (w : World) : World × Nat :=
  let w0 := if w.st.prog_sck = 0 then
      { w with st := { w.st with prog_sck := USBASP_ISP_SCK_1500 } } else w
  ispEnterLoop echo w0.st.prog_sck 0 w0

/-- An operation request the dispatcher can issue to the engine, together
with the oracle data (target responses, timer samples, loop fuel) its run
consumes. -/
inductive Op
  | connect
  | disconnect
  | setSCK (o : Nat)
  | enterProg (echo : Nat → Nat)
  | readFlash (a mi : Nat)
  | writeFlash (a d p : Nat) (rd tm : Nat → Nat) (fuel : Nat)
  | flushPage (a v : Nat) (rd tm : Nat → Nat) (fuel : Nat)
  | readEEPROM (a mi : Nat)
  | writeEEPROM (a d : Nat)

/-- The world after one operation. -/
def runOp (w : World) : Op → World
  | Op.connect => ispConnect w
  | Op.disconnect => ispDisconnect w
  | Op.setSCK o => ispSetSCKOption o w
  | Op.enterProg echo => (ispEnterProgrammingMode echo w).1
  | Op.readFlash a mi => (ispReadFlash a mi w).1
  | Op.writeFlash a d p rd tm fuel => (ispWriteFlash a d p rd tm fuel w).1
  | Op.flushPage a v rd tm fuel => (ispFlushPage a v rd tm fuel w).1
  | Op.readEEPROM a mi => (ispReadEEPROM a mi w).1
  | Op.writeEEPROM a d => (ispWriteEEPROM a d w).1

/-- The world after a sequence of operations. -/
def runOps (w : World) : List Op → World
  | [] => w
  | op :: ops => runOps (runOp w op) ops

/-- The addressing invariant: the cached high-address byte equals the high
byte of the most recent load-extended-address command actually transmitted,
or the 0xFF sentinel when none has been transmitted since the last connect. -/
def AddrInv (w : World) : Prop :=
  w.st.isp_hiaddr = w.lastExt.getD 0xFF

/-- A concrete session state for counterexamples and witnesses: everything
zeroed, software transport, no speed configured. -/
def st0 : ISPState :=
  { isp_hiaddr := 0, sck_sw_delay := 0, ispTransmit := Transport.ispTransmit_sw,
    prog_sck := 0, SPCR := 0, SPSR := 0, ISP_DDR := 0, ISP_OUT := 0 }

/-- A concrete world built on `st0` with an empty trace. -/
def w0 : World := { st := st0, trace := [], lastExt := none }

/-- A concrete world whose configured speed is the 1.5 MHz tier. -/
def w12 : World := { w0 with st := { st0 with prog_sck := USBASP_ISP_SCK_1500 } }

theorem land_land_self (x m : Nat) : (x &&& m) &&& m = x &&& m := by
  rw [Nat.land_assoc]
  have hm : m &&& m = m := by
    apply Nat.eq_of_testBit_eq
    intro i
    simp [Nat.testBit_land]
  rw [hm]

theorem connect_hiaddr (w : World) : (ispConnect w).st.isp_hiaddr = 0xFF := rfl

theorem connect_lastExt (w : World) : (ispConnect w).lastExt = none := rfl

/-- C1 (amended): ispUpdateExtended transmits the 4-byte load-extended-address
sequence (0x4D, 0x00, high byte, 0x00) and updates the cache if and only if
the computed high byte (address >> 17, truncated to uchar) differs from the
cached value; after ispConnect has reset the cache to the 0xFF sentinel, the
very next flash access emits the sequence for every address whose computed
high byte differs from 0xFF — an address whose computed high byte equals
0xFF coincides with the sentinel and does not trigger it. -/
theorem updateExtendedEmitsIffChanged :
    (∀ address w,
      (w.st.isp_hiaddr ≠ ((address % 2 ^ 32) >>> 17) % 256 →
        ispUpdateExtended address w =
          { st := { w.st with isp_hiaddr := ((address % 2 ^ 32) >>> 17) % 256 },
            trace := w.trace ++ [Ev.tx 0x4D, Ev.tx 0x00,
              Ev.tx (((address % 2 ^ 32) >>> 17) % 256), Ev.tx 0x00],
            lastExt := some (((address % 2 ^ 32) >>> 17) % 256) }) ∧
      (w.st.isp_hiaddr = ((address % 2 ^ 32) >>> 17) % 256 →
        ispUpdateExtended address w = w)) ∧
    (∀ address w, ((address % 2 ^ 32) >>> 17) % 256 ≠ 0xFF →
      (ispUpdateExtended address (ispConnect w)).trace =
        (ispConnect w).trace ++ [Ev.tx 0x4D, Ev.tx 0x00,
          Ev.tx (((address % 2 ^ 32) >>> 17) % 256), Ev.tx 0x00]) := by
  constructor
  · intro address w
    constructor
    · intro h
      unfold ispUpdateExtended
      rw [if_pos h]
    · intro h
      unfold ispUpdateExtended
      rw [if_neg (by simpa using h)]
  · intro address w h
    unfold ispUpdateExtended
    rw [if_pos (by rw [connect_hiaddr]; exact fun he => h he.symm)]

/-- C1 witness: at address 0 right after connect, the cache holds the 0xFF
sentinel, so the load-extended-address command for high byte 0 is emitted. -/
theorem updateExtendedEmitsIffChangedWitness :
    (ispUpdateExtended 0 (ispConnect w0)).trace =
      (ispConnect w0).trace ++ [Ev.tx 0x4D, Ev.tx 0x00,
        Ev.tx (((0 % 2 ^ 32) >>> 17) % 256), Ev.tx 0x00] :=
  updateExtendedEmitsIffChanged.2 0 w0 (by decide)

/-- C1 counterexample: the address 0xFF <<< 17 has computed high byte 0xFF;
right after ispConnect the very next flash access at that address emits no
load-extended-address sequence (its four transmitted bytes are exactly the
read sequence), refuting the claim that the first flash access after
connect always emits it regardless of the address value. -/
theorem updateExtendedAfterConnectFFNoEmit :
    (((0xFF <<< 17) % 2 ^ 32) >>> 17) % 256 = 0xFF ∧
    ispUpdateExtended (0xFF <<< 17) (ispConnect w0) = ispConnect w0 ∧
    ((ispReadFlash (0xFF <<< 17) 0 (ispConnect w0)).1).trace =
      (ispConnect w0).trace ++ [Ev.tx 0x20, Ev.tx 0x00, Ev.tx 0x00, Ev.tx 0x00] := by
  refine ⟨by decide, by decide, by decide⟩

theorem updExt_congr (b : Nat) {w1 w2 : World} (hst : w1.st = w2.st)
    (hle : w1.lastExt = w2.lastExt) :
    (ispUpdateExtended b w1).st = (ispUpdateExtended b w2).st ∧
    (ispUpdateExtended b w1).lastExt = (ispUpdateExtended b w2).lastExt := by
  unfold ispUpdateExtended
  rw [hst]
  by_cases h : w2.st.isp_hiaddr ≠ ((b % 2 ^ 32) >>> 17) % 256
  · rw [if_pos h, if_pos h]
    exact ⟨rfl, rfl⟩
  · rw [if_neg h, if_neg h]
    exact ⟨hst, hle⟩

theorem setSCK_sw_delay (o : Nat) (w : World) (h1 : USBASP_ISP_SCK_0_5 ≤ o)
    (h2 : o < USBASP_ISP_SCK_93_75) :
    (ispSetSCKOption o w).st.ispTransmit = Transport.ispTransmit_sw ∧
    (ispSetSCKOption o w).st.sck_sw_delay = 3 <<< (USBASP_ISP_SCK_32 - o) := by
  simp only [USBASP_ISP_SCK_0_5] at h1
  simp only [USBASP_ISP_SCK_93_75] at h2
  interval_cases o <;> exact ⟨rfl, rfl⟩

/-- C4: every speed-tier option at or above the 93.75 kHz hardware cutoff
selects the hardware transmit variant; every tier below the cutoff selects
the software variant and sets sck_sw_delay to the base constant 3 shifted
left by the tier's distance from the slowest tier, so the delay is strictly
larger for every slower tier. -/
theorem setSCKOptionTransportDelay :
    (∀ o w, USBASP_ISP_SCK_93_75 ≤ o →
      (ispSetSCKOption o w).st.ispTransmit = Transport.ispTransmit_hw) ∧
    (∀ o w, USBASP_ISP_SCK_0_5 ≤ o → o < USBASP_ISP_SCK_93_75 →
      (ispSetSCKOption o w).st.ispTransmit = Transport.ispTransmit_sw ∧
      (ispSetSCKOption o w).st.sck_sw_delay = 3 <<< (USBASP_ISP_SCK_32 - o)) ∧
    (∀ o o' w w', USBASP_ISP_SCK_0_5 ≤ o' → o' < o → o < USBASP_ISP_SCK_93_75 →
      (ispSetSCKOption o w).st.sck_sw_delay < (ispSetSCKOption o' w').st.sck_sw_delay) := by
  refine ⟨?_, setSCK_sw_delay, ?_⟩
  · intro o w h
    have h0 : ¬ o = USBASP_ISP_SCK_AUTO := by
      simp only [USBASP_ISP_SCK_93_75] at h
      simp only [USBASP_ISP_SCK_AUTO]
      omega
    unfold ispSetSCKOption
    rw [if_neg h0, if_pos h]
    repeat' split
    all_goals rfl
  · intro o o' w w' h1 h2 h3
    have ho : USBASP_ISP_SCK_0_5 ≤ o := le_trans h1 (le_of_lt h2)
    rcases setSCK_sw_delay o w ho h3 with ⟨-, hd⟩
    rcases setSCK_sw_delay o' w' h1 (lt_trans h2 h3) with ⟨-, hd'⟩
    rw [hd, hd', Nat.shiftLeft_eq, Nat.shiftLeft_eq]
    have : (2 : Nat) ^ (USBASP_ISP_SCK_32 - o) < 2 ^ (USBASP_ISP_SCK_32 - o') := by
      apply Nat.pow_lt_pow_right (by omega)
      simp only [USBASP_ISP_SCK_0_5] at h1
      simp only [USBASP_ISP_SCK_93_75] at h3
      simp only [USBASP_ISP_SCK_32]
      omega
    omega

/-- C4 witness: the cutoff tier 8 selects hardware; tier 1 selects software
with delay 3 << 6 = 192; tier 7 has a strictly smaller delay than tier 1. -/
theorem setSCKOptionTransportDelayWitness :
    (ispSetSCKOption 8 w0).st.ispTransmit = Transport.ispTransmit_hw ∧
    ((ispSetSCKOption 1 w0).st.ispTransmit = Transport.ispTransmit_sw ∧
      (ispSetSCKOption 1 w0).st.sck_sw_delay = 3 <<< (USBASP_ISP_SCK_32 - 1)) ∧
    (ispSetSCKOption 7 w0).st.sck_sw_delay < (ispSetSCKOption 1 w0).st.sck_sw_delay :=
  ⟨setSCKOptionTransportDelay.1 8 w0 (by decide),
   setSCKOptionTransportDelay.2.1 1 w0 (by decide) (by decide),
   setSCKOptionTransportDelay.2.2 7 1 w0 w0 (by decide) (by decide) (by decide)⟩

/-- C5: ispWriteFlash with data 0x7F and polling enabled transmits the
4-byte write sequence, waits the fixed worst-case 4.8 ms and returns
success without any readback poll (the returned trace ends at the wait);
with the polling flag 0 it returns success immediately after the 4-byte
write sequence, with no wait and no readback. -/
theorem writeFlashFixedWaitPaths :
    (∀ address p rd tm fuel w, p ≠ 0 →
      ispWriteFlash address 0x7F p rd tm fuel w =
        ({ ispUpdateExtended address w with
            trace := (ispUpdateExtended address w).trace ++
              [Ev.tx (0x40 ||| (((address % 2 ^ 32) &&& 1) <<< 3)),
               Ev.tx (((address % 2 ^ 32) >>> 9) % 256),
               Ev.tx (((address % 2 ^ 32) >>> 1) % 256),
               Ev.tx 0x7F, Ev.wait 15] }, some (0, 0))) ∧
    (∀ address d rd tm fuel w,
      ispWriteFlash address d 0 rd tm fuel w =
        ({ ispUpdateExtended address w with
            trace := (ispUpdateExtended address w).trace ++
              [Ev.tx (0x40 ||| (((address % 2 ^ 32) &&& 1) <<< 3)),
               Ev.tx (((address % 2 ^ 32) >>> 9) % 256),
               Ev.tx (((address % 2 ^ 32) >>> 1) % 256),
               Ev.tx (d % 256)] }, some (0, 0))) := by
  constructor
  · intro address p rd tm fuel w hp
    unfold ispWriteFlash
    rw [if_neg hp, if_pos (by norm_num)]
    simp [List.append_assoc]
  · intro address d rd tm fuel w
    unfold ispWriteFlash
    rw [if_pos rfl]

/-- C5 witness: concrete instance of the fixed-wait path at address 2. -/
theorem writeFlashFixedWaitPathsWitness :
    ispWriteFlash 2 0x7F 1 (fun _ => 0) (fun _ => 0) 0 w0 =
      ({ ispUpdateExtended 2 w0 with
          trace := (ispUpdateExtended 2 w0).trace ++
            [Ev.tx (0x40 ||| (((2 % 2 ^ 32) &&& 1) <<< 3)),
             Ev.tx (((2 % 2 ^ 32) >>> 9) % 256),
             Ev.tx (((2 % 2 ^ 32) >>> 1) % 256),
             Ev.tx 0x7F, Ev.wait 15] }, some (0, 0)) :=
  writeFlashFixedWaitPaths.1 2 1 (fun _ => 0) (fun _ => 0) 0 w0 (by decide)

/-- C7 (amended): a speed request of the automatic sentinel given to
ispSetSCKOption is resolved to the 1.5 MHz default tier before any
configuration is applied; but ispEnterProgrammingMode entered with no
speed previously configured only sets the prog_sck variable to that
default tier — it applies no transport selection or clock configuration
before the first handshake attempt (configuration is applied only when
stepping down after a failed tier). -/
theorem autoSpeedResolution :
    (∀ w, ispSetSCKOption USBASP_ISP_SCK_AUTO w = ispSetSCKOption USBASP_ISP_SCK_1500 w) ∧
    (∀ echo w, w.st.prog_sck = 0 →
      ispEnterProgrammingMode echo w =
        ispEnterLoop echo USBASP_ISP_SCK_1500 0
          { w with st := { w.st with prog_sck := USBASP_ISP_SCK_1500 } }) := by
  constructor
  · intro w
    rfl
  · intro echo w h
    unfold ispEnterProgrammingMode
    rw [if_pos h]

/-- C7 witness: concrete instance of the amended second part on a world
with no speed configured. -/
theorem autoSpeedResolutionWitness :
    ispEnterProgrammingMode (fun _ => 0x53) w0 =
      ispEnterLoop (fun _ => 0x53) USBASP_ISP_SCK_1500 0
        { w0 with st := { w0.st with prog_sck := USBASP_ISP_SCK_1500 } } :=
  autoSpeedResolution.2 (fun _ => 0x53) w0 (by decide)

/-- C7 counterexample: starting from a world with no speed configured and
the software transmit variant active, ispEnterProgrammingMode succeeds at
the very first attempt with the transmit variant still the software one,
whereas actually configuring the 1.5 MHz default tier selects the hardware
variant — so no transport/clock configuration happened before the first
handshake attempt, refuting the claim. -/
theorem enterProgrammingModeNoConfigCounterexample :
    w0.st.prog_sck = 0 ∧
    (ispEnterProgrammingMode (fun _ => 0x53) w0).2 = 0 ∧
    ((ispEnterProgrammingMode (fun _ => 0x53) w0).1).st.ispTransmit = Transport.ispTransmit_sw ∧
    (ispSetSCKOption USBASP_ISP_SCK_1500 w0).st.ispTransmit = Transport.ispTransmit_hw :=
  ⟨rfl, rfl, rfl, rfl⟩

/-- C9: ispDisconnect is idempotent — a second call right after a first
one changes nothing (direction bits, output/pull-up bits and the SPI
enable state are left exactly as the first call left them) — and it
disables the hardware SPI peripheral unconditionally. -/
theorem disconnectIdempotent :
    (∀ w, ispDisconnect (ispDisconnect w) = ispDisconnect w) ∧
    (∀ w, (ispDisconnect w).st.SPCR = 0) := by
  constructor
  · intro w
    unfold ispDisconnect spiHWdisable
    simp [land_land_self]
  · intro w
    rfl

/-- C10: ispReadEEPROM and ispWriteEEPROM leave the cached high-address
byte and the whole session state unchanged, never transmit a
load-extended-address command (their transmitted bytes are exactly the
4-byte EEPROM sequences, and the ghost record of the last transmitted
extended-address byte is untouched), and a flash access after an EEPROM
operation reaches the same state and extended-address behaviour as if the
EEPROM operation had not occurred. -/
theorem eepromFrameEffect :
    (∀ a mi w, ((ispReadEEPROM a mi w).1).st = w.st ∧
      ((ispReadEEPROM a mi w).1).lastExt = w.lastExt ∧
      ((ispReadEEPROM a mi w).1).trace = w.trace ++
        [Ev.tx 0xA0, Ev.tx (((a % 2 ^ 16) >>> 8) % 256),
         Ev.tx ((a % 2 ^ 16) % 256), Ev.tx 0x00]) ∧
    (∀ a d w, ((ispWriteEEPROM a d w).1).st = w.st ∧
      ((ispWriteEEPROM a d w).1).lastExt = w.lastExt ∧
      ((ispWriteEEPROM a d w).1).trace = w.trace ++
        [Ev.tx 0xC0, Ev.tx (((a % 2 ^ 16) >>> 8) % 256),
         Ev.tx ((a % 2 ^ 16) % 256), Ev.tx (d % 256), Ev.wait 30]) ∧
    (∀ a d b mi w,
      ((ispReadFlash b mi ((ispWriteEEPROM a d w).1)).1).st =
        ((ispReadFlash b mi w).1).st ∧
      ((ispReadFlash b mi ((ispWriteEEPROM a d w).1)).1).lastExt =
        ((ispReadFlash b mi w).1).lastExt) ∧
    (∀ a mi b mi2 w,
      ((ispReadFlash b mi2 ((ispReadEEPROM a mi w).1)).1).st =
        ((ispReadFlash b mi2 w).1).st ∧
      ((ispReadFlash b mi2 ((ispReadEEPROM a mi w).1)).1).lastExt =
        ((ispReadFlash b mi2 w).1).lastExt) := by
  refine ⟨fun a mi w => ⟨rfl, rfl, rfl⟩, fun a d w => ⟨rfl, rfl, rfl⟩, ?_, ?_⟩
  · intro a d b mi w
    show (ispUpdateExtended b ((ispWriteEEPROM a d w).1)).st =
        (ispUpdateExtended b w).st ∧
      (ispUpdateExtended b ((ispWriteEEPROM a d w).1)).lastExt =
        (ispUpdateExtended b w).lastExt
    exact updExt_congr b rfl rfl
  · intro a mi b mi2 w
    show (ispUpdateExtended b ((ispReadEEPROM a mi w).1)).st =
        (ispUpdateExtended b w).st ∧
      (ispUpdateExtended b ((ispReadEEPROM a mi w).1)).lastExt =
        (ispUpdateExtended b w).lastExt
    exact updExt_congr b rfl rfl

theorem pollFlash_fail_windows (rd tm : Nat → Nat) (sent : Nat) :
    ∀ fuel retries starttime wins i n,
      ispPollFlash rd tm sent fuel retries starttime wins i = some (1, n) →
      n = wins + retries := by
  intro fuel
  induction fuel with
  | zero =>
    intro retries starttime wins i n h
    simp [ispPollFlash] at h
  | succ fuel ih =>
    intro retries starttime wins i n h
    rw [ispPollFlash] at h
    by_cases h0 : retries = 0
    · rw [if_pos h0] at h
      injection h with h
      injection h with h1 h2
      omega
    · rw [if_neg h0] at h
      by_cases h1 : rd i % 256 ≠ sent
      · rw [if_pos h1] at h
        injection h with h
        injection h with h2 h3
        omega
      · rw [if_neg h1] at h
        by_cases h2 : CLOCK_T_320us < ((tm i % 256) + 256 - starttime % 256) % 256
        · rw [if_pos h2] at h
          have := ih (retries - 1) (tm i % 256) (wins + 1) (i + 1) n h
          omega
        · rw [if_neg h2] at h
          have := ih retries starttime wins (i + 1) n h
          omega

theorem pollFlash_immediate_success (rd tm : Nat → Nat)
    (sent fuel retries starttime wins i : Nat) (h0 : retries ≠ 0)
    (h1 : rd i % 256 ≠ sent) :
    ispPollFlash rd tm sent (fuel + 1) retries starttime wins i = some (0, wins) := by
  rw [ispPollFlash, if_neg h0, if_pos h1]

theorem pollFlash_no_decrement (rd tm : Nat → Nat)
    (sent fuel retries starttime wins i : Nat) (h0 : retries ≠ 0)
    (h1 : rd i % 256 = sent)
    (h2 : ¬ CLOCK_T_320us < ((tm i % 256) + 256 - starttime % 256) % 256) :
    ispPollFlash rd tm sent (fuel + 1) retries starttime wins i =
      ispPollFlash rd tm sent fuel retries starttime wins (i + 1) := by
  rw [ispPollFlash, if_neg h0, if_neg (by simpa using h1), if_neg h2]

theorem pollFlash_busy7F :
    ispPollFlash (fun _ => 0x7F) (fun j => 61 * j) 0x7F 40 30 0 0 1 = some (1, 30) := by
  decide

theorem pollFlash_busyFF :
    ispPollFlash (fun _ => 0xFF) (fun j => 61 * j) 0xFF 40 30 0 0 1 = some (1, 30) := by
  decide

/-- C2: the busy-polling loop of ispWriteFlash/ispFlushPage returns
failure 1 exactly when its full retry budget of timeout windows has
elapsed (never earlier: a failure outcome with initial budget 30 reports
exactly 30 elapsed windows); a re-read inside a window does not consume
budget (the budget counts fixed ~320-time-unit windows, not immediate
re-reads); it returns success 0 as soon as any readback differs from the
busy sentinel; and concretely, against a target whose busy sentinel (0x7F
for ispWriteFlash, 0xFF for ispFlushPage) never clears, both operations
with polling enabled and non-sentinel data terminate with failure 1 after
exactly 30 windows. -/
theorem flashPollRetryBudget :
    (∀ rd tm sent fuel retries starttime wins i n,
      ispPollFlash rd tm sent fuel retries starttime wins i = some (1, n) →
      n = wins + retries) ∧
    (∀ rd tm sent fuel retries starttime wins i, retries ≠ 0 → rd i % 256 ≠ sent →
      ispPollFlash rd tm sent (fuel + 1) retries starttime wins i = some (0, wins)) ∧
    (∀ rd tm sent fuel retries starttime wins i, retries ≠ 0 → rd i % 256 = sent →
      ¬ CLOCK_T_320us < ((tm i % 256) + 256 - starttime % 256) % 256 →
      ispPollFlash rd tm sent (fuel + 1) retries starttime wins i =
        ispPollFlash rd tm sent fuel retries starttime wins (i + 1)) ∧
    (∀ a d w, d % 256 ≠ 0x7F →
      (ispWriteFlash a d 1 (fun _ => 0x7F) (fun j => 61 * j) 40 w).2 = some (1, 30)) ∧
    (∀ a w,
      (ispFlushPage a 0 (fun _ => 0xFF) (fun j => 61 * j) 40 w).2 = some (1, 30)) := by
  refine ⟨pollFlash_fail_windows, pollFlash_immediate_success, pollFlash_no_decrement,
    ?_, ?_⟩
  · intro a d w hd
    unfold ispWriteFlash
    rw [if_neg one_ne_zero, if_neg hd]
    exact pollFlash_busy7F
  · intro a w
    unfold ispFlushPage
    rw [if_neg (by decide)]
    exact pollFlash_busyFF

/-- C2 witness: concrete instances of the hypothesised parts — the
exact-budget law on the concrete all-busy run, immediate success on a
clearing readback, no budget consumption within a window, and the two
concrete failure runs. -/
theorem flashPollRetryBudgetWitness :
    (30 : Nat) = 0 + 30 ∧
    ispPollFlash (fun _ => 0) (fun j => j) 0x7F 5 30 0 0 2 = some (0, 0) ∧
    ispPollFlash (fun _ => 0x7F) (fun j => j) 0x7F 5 30 0 0 2 =
      ispPollFlash (fun _ => 0x7F) (fun j => j) 0x7F 4 30 0 0 3 ∧
    (ispWriteFlash 0 1 1 (fun _ => 0x7F) (fun j => 61 * j) 40 w0).2 = some (1, 30) ∧
    (ispFlushPage 0 0 (fun _ => 0xFF) (fun j => 61 * j) 40 w0).2 = some (1, 30) :=
  ⟨flashPollRetryBudget.1 (fun _ => 0x7F) (fun j => 61 * j) 0x7F 40 30 0 0 1 30
      pollFlash_busy7F,
   flashPollRetryBudget.2.1 (fun _ => 0) (fun j => j) 0x7F 4 30 0 0 2
      (by decide) (by decide),
   flashPollRetryBudget.2.2.1 (fun _ => 0x7F) (fun j => j) 0x7F 4 30 0 0 2
      (by decide) (by decide) (by decide),
   flashPollRetryBudget.2.2.2.1 0 1 w0 (by decide),
   flashPollRetryBudget.2.2.2.2 0 w0⟩

theorem tryTier_spec (echo : Nat → Nat) (t : Nat) : ∀ k w,
    ((ispTryTier echo t k w).2.1 = some 0 ∧
      ∃ j, j < t ∧ echo (k + j) % 256 = 0x53) ∨
    ((ispTryTier echo t k w).2.1 = none ∧ (ispTryTier echo t k w).2.2 = k + t ∧
      ∀ j, j < t → echo (k + j) % 256 ≠ 0x53) := by
  induction t with
  | zero =>
    intro k w
    right
    exact ⟨rfl, rfl, by omega⟩
  | succ t ih =>
    intro k w
    by_cases h : echo k % 256 = 0x53
    · left
      constructor
      · rw [ispTryTier, if_pos h]
      · exact ⟨0, by omega, by simpa using h⟩
    · rcases ih (k + 1) (ispAttempt w) with ⟨hs, j, hj, he⟩ | ⟨hn, hk, hall⟩
      · left
        constructor
        · rw [ispTryTier, if_neg h]
          exact hs
        · refine ⟨j + 1, by omega, ?_⟩
          rw [show k + (j + 1) = k + 1 + j by omega]
          exact he
      · right
        refine ⟨?_, ?_, ?_⟩
        · rw [ispTryTier, if_neg h]
          exact hn
        · rw [ispTryTier, if_neg h]
          rw [hk]
          omega
        · intro j hj
          match j with
          | 0 => simpa using h
          | j + 1 =>
            rw [show k + (j + 1) = k + 1 + j by omega]
            exact hall j (by omega)

theorem enterLoop_spec (echo : Nat → Nat) (p : Nat) : ∀ k w,
    ((ispEnterLoop echo p k w).2 = 0 ∧
      ∃ j, j < 3 * p ∧ echo (k + j) % 256 = 0x53) ∨
    ((ispEnterLoop echo p k w).2 = 1 ∧
      ∀ j, j < 3 * p → echo (k + j) % 256 ≠ 0x53) := by
  induction p with
  | zero =>
    intro k w
    right
    exact ⟨rfl, by omega⟩
  | succ p ih =>
    intro k w
    rw [ispEnterLoop]
    rcases tryTier_spec echo 3 k
        (if w.st.ispTransmit = Transport.ispTransmit_hw then spiHWenable w else w) with
      ⟨hs, j, hj, he⟩ | ⟨hn, hk, hall⟩
    · rw [hs]
      left
      exact ⟨rfl, j, by omega, he⟩
    · rw [hn, hk]
      rcases ih (k + 3) (ispSetSCKOption p
          { spiHWdisable (ispTryTier echo 3 k
              (if w.st.ispTransmit = Transport.ispTransmit_hw then spiHWenable w else w)).1 with
            st := { (spiHWdisable (ispTryTier echo 3 k
              (if w.st.ispTransmit = Transport.ispTransmit_hw then spiHWenable w else w)).1).st with
              prog_sck := p } }) with ⟨h0, j, hj, he⟩ | ⟨h1, hall2⟩
      · left
        refine ⟨h0, 3 + j, by omega, ?_⟩
        rw [show k + (3 + j) = k + 3 + j by omega]
        exact he
      · right
        refine ⟨h1, ?_⟩
        intro j hj
        by_cases hj3 : j < 3
        · exact hall j hj3
        · rw [show k + j = k + 3 + (j - 3) by omega]
          exact hall2 (j - 3) (by omega)

theorem enterLoop_result01 (echo : Nat → Nat) (p k : Nat) (w : World) :
    (ispEnterLoop echo p k w).2 = 0 ∨ (ispEnterLoop echo p k w).2 = 1 := by
  rcases enterLoop_spec echo p k w with ⟨h, -⟩ | ⟨h, -⟩
  · exact Or.inl h
  · exact Or.inr h

/-- C3: each handshake attempt of ispEnterProgrammingMode pulses reset,
waits the settle interval and transmits the 4-byte sequence 0xAC 0x53
0x00 0x00; the ladder starting at tier p returns success 0 exactly when
the echo of the third transmitted byte equals 0x53 at one of its at most
3 * p attempts (3 per tier, stepping to the next-slower tier after 3
failures), and returns failure 1 otherwise, i.e. only after the slowest
tier is exhausted without a correct echo. -/
theorem enterProgrammingModeLadder :
    (∀ w, (ispAttempt w).trace = w.trace ++
      [Ev.outSet ISP_RST, Ev.wait 1, Ev.outClr ISP_RST, Ev.wait 62,
       Ev.tx 0xAC, Ev.tx 0x53, Ev.tx 0x00, Ev.tx 0x00]) ∧
    (∀ echo p k w, (ispEnterLoop echo p k w).2 = 0 ↔
      ∃ j, j < 3 * p ∧ echo (k + j) % 256 = 0x53) ∧
    (∀ echo w, w.st.prog_sck ≠ 0 →
      ((ispEnterProgrammingMode echo w).2 = 0 ↔
        ∃ j, j < 3 * w.st.prog_sck ∧ echo j % 256 = 0x53)) ∧
    (∀ echo p k w,
      (ispEnterLoop echo p k w).2 = 0 ∨ (ispEnterLoop echo p k w).2 = 1) := by
  have hiff : ∀ echo p k w, (ispEnterLoop echo p k w).2 = 0 ↔
      ∃ j, j < 3 * p ∧ echo (k + j) % 256 = 0x53 := by
    intro echo p k w
    constructor
    · intro h0
      rcases enterLoop_spec echo p k w with ⟨-, hex⟩ | ⟨h1, -⟩
      · exact hex
      · omega
    · intro hex
      rcases enterLoop_spec echo p k w with ⟨h0, -⟩ | ⟨-, hall⟩
      · exact h0
      · rcases hex with ⟨j, hj, he⟩
        exact absurd he (hall j hj)
  refine ⟨fun w => rfl, hiff, ?_, enterLoop_result01⟩
  intro echo w h
  unfold ispEnterProgrammingMode
  rw [if_neg h]
  have := hiff echo w.st.prog_sck 0 w
  simpa using this

/-- C3 witness: against a target that answers 0x53 at every attempt, a
session configured at the default tier enters programming mode with
success 0. -/
theorem enterProgrammingModeLadderWitness :
    (ispEnterProgrammingMode (fun _ => 0x53) w12).2 = 0 :=
  (enterProgrammingModeLadder.2.2.1 (fun _ => 0x53) w12 (by decide)).mpr
    ⟨0, by decide, by decide⟩

theorem pollFlash_result01 (rd tm : Nat → Nat) (sent : Nat) :
    ∀ fuel retries starttime wins i r n,
      ispPollFlash rd tm sent fuel retries starttime wins i = some (r, n) →
      r = 0 ∨ r = 1 := by
  intro fuel
  induction fuel with
  | zero =>
    intro retries starttime wins i r n h
    simp [ispPollFlash] at h
  | succ fuel ih =>
    intro retries starttime wins i r n h
    rw [ispPollFlash] at h
    by_cases h0 : retries = 0
    · rw [if_pos h0] at h
      injection h with h
      injection h with h1 h2
      omega
    · rw [if_neg h0] at h
      by_cases h1 : rd i % 256 ≠ sent
      · rw [if_pos h1] at h
        injection h with h
        injection h with h2 h3
        omega
      · rw [if_neg h1] at h
        by_cases h2 : CLOCK_T_320us < ((tm i % 256) + 256 - starttime % 256) % 256
        · rw [if_pos h2] at h
          exact ih _ _ _ _ _ _ h
        · rw [if_neg h2] at h
          exact ih _ _ _ _ _ _ h

theorem writeFlash_result01 (a d p : Nat) (rd tm : Nat → Nat) (fuel : Nat)
    (w : World) (r n : Nat)
    (h : (ispWriteFlash a d p rd tm fuel w).2 = some (r, n)) : r = 0 ∨ r = 1 := by
  unfold ispWriteFlash at h
  by_cases hp : p = 0
  · rw [if_pos hp] at h
    injection h with h
    injection h with h1 h2
    omega
  · rw [if_neg hp] at h
    by_cases hd : d % 256 = 0x7F
    · rw [if_pos hd] at h
      injection h with h
      injection h with h1 h2
      omega
    · rw [if_neg hd] at h
      exact pollFlash_result01 rd tm 0x7F fuel 30 (tm 0 % 256) 0 1 r n h

theorem flushPage_result01 (a v : Nat) (rd tm : Nat → Nat) (fuel : Nat)
    (w : World) (r n : Nat)
    (h : (ispFlushPage a v rd tm fuel w).2 = some (r, n)) : r = 0 ∨ r = 1 := by
  unfold ispFlushPage at h
  by_cases hv : v % 256 = 0xFF
  · rw [if_pos hv] at h
    injection h with h
    injection h with h1 h2
    omega
  · rw [if_neg hv] at h
    exact pollFlash_result01 rd tm 0xFF fuel 30 (tm 0 % 256) 0 1 r n h

/-- C8: ispWriteEEPROM transmits exactly 0xC0, the address high byte, the
address low byte and the data byte, then waits the fixed worst-case
duration and returns success 0 — it can never fail; and every
status-returning operation of the engine yields only 0 or 1 (the flash
write / page flush outcomes and the programming-mode handshake), while
the read operations return a byte below 256. -/
theorem writeEEPROMResultDomain :
    (∀ a d w, (ispWriteEEPROM a d w).2 = 0) ∧
    (∀ a d w, ((ispWriteEEPROM a d w).1).trace = w.trace ++
      [Ev.tx 0xC0, Ev.tx (((a % 2 ^ 16) >>> 8) % 256),
       Ev.tx ((a % 2 ^ 16) % 256), Ev.tx (d % 256), Ev.wait 30]) ∧
    (∀ a d p rd tm fuel w r n,
      (ispWriteFlash a d p rd tm fuel w).2 = some (r, n) → r = 0 ∨ r = 1) ∧
    (∀ a v rd tm fuel w r n,
      (ispFlushPage a v rd tm fuel w).2 = some (r, n) → r = 0 ∨ r = 1) ∧
    (∀ echo w, (ispEnterProgrammingMode echo w).2 = 0 ∨
      (ispEnterProgrammingMode echo w).2 = 1) ∧
    (∀ a mi w, (ispReadFlash a mi w).2 < 256) ∧
    (∀ a mi w, (ispReadEEPROM a mi w).2 < 256) := by
  refine ⟨fun a d w => rfl, fun a d w => rfl, writeFlash_result01, flushPage_result01,
    ?_, ?_, ?_⟩
  · intro echo w
    unfold ispEnterProgrammingMode
    exact enterLoop_result01 echo _ 0 _
  · intro a mi w
    exact Nat.mod_lt mi (by omega)
  · intro a mi w
    exact Nat.mod_lt mi (by omega)

/-- C8 witness: concrete instances of the hypothesised parts — a
non-polled flash write and a fixed-wait page flush both land in the
two-valued result domain. -/
theorem writeEEPROMResultDomainWitness :
    ((0 : Nat) = 0 ∨ (0 : Nat) = 1) ∧ ((0 : Nat) = 0 ∨ (0 : Nat) = 1) :=
  ⟨writeEEPROMResultDomain.2.2.1 0 5 0 (fun _ => 0) (fun _ => 0) 0 w0 0 0 (by decide),
   writeEEPROMResultDomain.2.2.2.1 0 0xFF (fun _ => 0) (fun _ => 0) 0 w0 0 0 (by decide)⟩

theorem updExt_inv (a : Nat) (w : World) (h : AddrInv w) :
    AddrInv (ispUpdateExtended a w) := by
  unfold AddrInv ispUpdateExtended at *
  by_cases hc : w.st.isp_hiaddr ≠ ((a % 2 ^ 32) >>> 17) % 256
  · rw [if_pos hc]
    exact rfl
  · rw [if_neg hc]
    exact h

theorem setSCK_pres (o : Nat) (w : World) :
    (ispSetSCKOption o w).st.isp_hiaddr = w.st.isp_hiaddr ∧
    (ispSetSCKOption o w).lastExt = w.lastExt := by
  refine ⟨?_, ?_⟩ <;> simp only [ispSetSCKOption]
  · repeat' split
    all_goals rfl
  · repeat' split
    all_goals rfl

theorem tryTier_pres (echo : Nat → Nat) (t : Nat) : ∀ k w,
    ((ispTryTier echo t k w).1).st.isp_hiaddr = w.st.isp_hiaddr ∧
    ((ispTryTier echo t k w).1).lastExt = w.lastExt := by
  induction t with
  | zero => exact fun k w => ⟨rfl, rfl⟩
  | succ t ih =>
    intro k w
    by_cases h : echo k % 256 = 0x53
    · rw [ispTryTier, if_pos h]
      exact ⟨rfl, rfl⟩
    · rw [ispTryTier, if_neg h]
      exact ih (k + 1) (ispAttempt w)

theorem enterLoop_pres (echo : Nat → Nat) (p : Nat) : ∀ k w,
    ((ispEnterLoop echo p k w).1).st.isp_hiaddr = w.st.isp_hiaddr ∧
    ((ispEnterLoop echo p k w).1).lastExt = w.lastExt := by
  induction p with
  | zero => exact fun k w => ⟨rfl, rfl⟩
  | succ p ih =>
    intro k w
    rw [ispEnterLoop]
    have hw1 : ((if w.st.ispTransmit = Transport.ispTransmit_hw then spiHWenable w
        else w)).st.isp_hiaddr = w.st.isp_hiaddr ∧
        ((if w.st.ispTransmit = Transport.ispTransmit_hw then spiHWenable w
        else w)).lastExt = w.lastExt := by
      split <;> exact ⟨rfl, rfl⟩
    rcases htt : (ispTryTier echo 3 k
        (if w.st.ispTransmit = Transport.ispTransmit_hw then spiHWenable w else w)).2.1 with
      _ | r
    · have htp := tryTier_pres echo 3 k
        (if w.st.ispTransmit = Transport.ispTransmit_hw then spiHWenable w else w)
      have hrec := ih (ispTryTier echo 3 k
          (if w.st.ispTransmit = Transport.ispTransmit_hw then spiHWenable w else w)).2.2
        (ispSetSCKOption p
          { spiHWdisable (ispTryTier echo 3 k
              (if w.st.ispTransmit = Transport.ispTransmit_hw then spiHWenable w else w)).1 with
            st := { (spiHWdisable (ispTryTier echo 3 k
              (if w.st.ispTransmit = Transport.ispTransmit_hw then spiHWenable w else w)).1).st with
              prog_sck := p } })
      have hset := setSCK_pres p
        { spiHWdisable (ispTryTier echo 3 k
            (if w.st.ispTransmit = Transport.ispTransmit_hw then spiHWenable w else w)).1 with
          st := { (spiHWdisable (ispTryTier echo 3 k
            (if w.st.ispTransmit = Transport.ispTransmit_hw then spiHWenable w else w)).1).st with
            prog_sck := p } }
      exact ⟨hrec.1.trans (hset.1.trans (htp.1.trans hw1.1)),
        hrec.2.trans (hset.2.trans (htp.2.trans hw1.2))⟩
    · have htp := tryTier_pres echo 3 k
        (if w.st.ispTransmit = Transport.ispTransmit_hw then spiHWenable w else w)
      exact ⟨htp.1.trans hw1.1, htp.2.trans hw1.2⟩

theorem enterProg_pres (echo : Nat → Nat) (w : World) :
    ((ispEnterProgrammingMode echo w).1).st.isp_hiaddr = w.st.isp_hiaddr ∧
    ((ispEnterProgrammingMode echo w).1).lastExt = w.lastExt := by
  unfold ispEnterProgrammingMode
  by_cases h : w.st.prog_sck = 0
  · rw [if_pos h]
    exact enterLoop_pres echo _ 0 _
  · rw [if_neg h]
    exact enterLoop_pres echo _ 0 _

theorem writeFlash_pres (a d p : Nat) (rd tm : Nat → Nat) (fuel : Nat) (w : World) :
    ((ispWriteFlash a d p rd tm fuel w).1).st = (ispUpdateExtended a w).st ∧
    ((ispWriteFlash a d p rd tm fuel w).1).lastExt = (ispUpdateExtended a w).lastExt := by
  refine ⟨?_, ?_⟩ <;> simp only [ispWriteFlash]
  · repeat' split
    all_goals rfl
  · repeat' split
    all_goals rfl

theorem flushPage_pres (a v : Nat) (rd tm : Nat → Nat) (fuel : Nat) (w : World) :
    ((ispFlushPage a v rd tm fuel w).1).st = (ispUpdateExtended a w).st ∧
    ((ispFlushPage a v rd tm fuel w).1).lastExt = (ispUpdateExtended a w).lastExt := by
  refine ⟨?_, ?_⟩ <;> simp only [ispFlushPage]
  · repeat' split
    all_goals rfl
  · repeat' split
    all_goals rfl

theorem runOp_inv (op : Op) (w : World) (h : AddrInv w) : AddrInv (runOp w op) := by
  cases op with
  | connect => exact rfl
  | disconnect => exact h
  | setSCK o =>
    show (ispSetSCKOption o w).st.isp_hiaddr = (ispSetSCKOption o w).lastExt.getD 0xFF
    rw [(setSCK_pres o w).1, (setSCK_pres o w).2]
    exact h
  | enterProg echo =>
    show ((ispEnterProgrammingMode echo w).1).st.isp_hiaddr =
      ((ispEnterProgrammingMode echo w).1).lastExt.getD 0xFF
    rw [(enterProg_pres echo w).1, (enterProg_pres echo w).2]
    exact h
  | readFlash a mi => exact updExt_inv a w h
  | writeFlash a d p rd tm fuel =>
    show ((ispWriteFlash a d p rd tm fuel w).1).st.isp_hiaddr =
      ((ispWriteFlash a d p rd tm fuel w).1).lastExt.getD 0xFF
    rw [(writeFlash_pres a d p rd tm fuel w).1, (writeFlash_pres a d p rd tm fuel w).2]
    exact updExt_inv a w h
  | flushPage a v rd tm fuel =>
    show ((ispFlushPage a v rd tm fuel w).1).st.isp_hiaddr =
      ((ispFlushPage a v rd tm fuel w).1).lastExt.getD 0xFF
    rw [(flushPage_pres a v rd tm fuel w).1, (flushPage_pres a v rd tm fuel w).2]
    exact updExt_inv a w h
  | readEEPROM a mi => exact h
  | writeEEPROM a d => exact h

theorem runOps_inv (ops : List Op) : ∀ w, AddrInv w → AddrInv (runOps w ops) := by
  induction ops with
  | nil => exact fun w h => h
  | cons op ops ih => exact fun w h => ih (runOp w op) (runOp_inv op w h)

/-- C6: in every state reachable by any sequence of engine operations
after ispConnect, the cached high-address byte equals the high byte of the
most recent load-extended-address command actually transmitted (tracked by
the ghost field lastExt), or the 0xFF sentinel when no such command has
been transmitted since the last connect; every operation preserves this
invariant. -/
theorem hiaddrInvariantReachable (w : World) (ops : List Op) :
    (runOps (ispConnect w) ops).st.isp_hiaddr =
      (runOps (ispConnect w) ops).lastExt.getD 0xFF :=
  runOps_inv ops (ispConnect w) rfl

end USBasp
